import Mathlib

/-!
Shallow embedding of `scripts/ghg_fire_emissions_functions.py` (GHG
emissions from fires, model of Chiriacò et al. 2013).

Tabular data is modelled as association lists: a pandas `DataFrame` is a
list of `(column name, column values)` pairs, a pandas `Series` (and the
one-row tables produced by the pipeline) is a list of `(label, value)`
pairs.  Machine floats are modelled as exact rationals `ℚ`.  A Python
function that can raise is modelled as returning `Option`/`Except`.
-/

/-- First-match lookup in an association list keyed by strings.  Models
`obj[key]` on a pandas object with unique labels: `none` models a raised
`KeyError`. -/
def alookup {α : Type} : List (String × α) → String → Option α
  | [], _ => none
  | (c, v) :: rest, n => if c = n then some v else alookup rest n

/-- Column assignment `df[name] = value`: replaces the (first) column with
that name, or appends a new column at the end. -/
def colUpdate {α : Type} : List (String × α) → String → α → List (String × α)
  | [], n, v => [(n, v)]
  | (c, w) :: rest, n, v =>
    if c = n then (n, v) :: rest else (c, w) :: colUpdate rest n v

/-- Sum of the values of `f` over a list of labels, `none` when any label
is missing.  Models `df.loc[labels].sum()` (a missing label raises). -/
def seqSum {α : Type} (f : α → Option ℚ) : List α → Option ℚ
  | [] => some 0
  | x :: xs =>
    match f x, seqSum f xs with
    | some v, some s => some (v + s)
    | _, _ => none

/-- Arithmetic mean of a list of rationals (as pandas `.mean()`). -/
def meanQ (l : List ℚ) : ℚ := l.sum / (l.length : ℚ)

/-- Boolean check that one character list starts with another. -/
def isPre : List Char → List Char → Bool
  | [], _ => true
  | _ :: _, [] => false
  | a :: as, b :: bs => a == b && isPre as bs

/-- Boolean check that the first character list occurs inside the second. -/
def hasInf : List Char → List Char → Bool
  | pat, [] => pat.isEmpty
  | pat, c :: rest => isPre pat (c :: rest) || hasInf pat rest

/-- Literal-substring test on strings; models `re.search` with a literal
pattern, as used by `df.filter(regex=...)`. -/
def strContains (s pat : String) : Bool := hasInf pat.data s.data

/-- The column-name suffix `_AREA_HA` appended at line 66 of the source. -/
def sfxAREA : String := "_AREA_HA"

/-- The EFFIS total-burnt-area column `AREA_HA`. -/
def colAREA : String := "AREA_HA"

/-- Error raised when a filter, join or selection produced an empty result
(the source raises `ValueError`; the spec names this condition
`NoMatchingDataError`). -/
inductive DataError where
  | NoMatchingDataError (column value : String)
deriving DecidableEq

/-- One fire-event record: a row of the EFFIS table, as an association
list from field name to field value. -/
def EffisRow : Type := List (String × String)

instance : DecidableEq EffisRow := by
  unfold EffisRow
  infer_instance

/-- Field access on a fire-event row. -/
def rowGet (r : EffisRow) (c : String) : Option String := alookup r c

/-- Embedding of the keyword-filter loop of `get_effis_data`
(`ghg_fire_emissions_functions.py`, lines 37-47): each `(column, value)`
pair with a non-`None` value narrows the table to the rows whose field
equals the value, and an empty intermediate result raises.  Loading the
shapefile and the date/rename preprocessing (lines 20-34) are external
I/O and are not part of the embedded loop. -/
def get_effis_data : List EffisRow → List (String × Option String) →
    Except DataError (List EffisRow)
  | df, [] => .ok df
  | df, (column, value) :: rest =>
    match value with
    | none => get_effis_data df rest
    | some v =>
      let filtered := df.filter (fun r => rowGet r column == some v)
      if filtered.isEmpty then .error (.NoMatchingDataError column v)
      else get_effis_data filtered rest

/-- The per-type percentage-to-hectares loop of `get_total_burnt_area`
(lines 65-66): for each forest type `t`, assign
`df[t ++ "_AREA_HA"] = df[t] / 100 * df["AREA_HA"]` on the caller's
table.  A missing column models a raised `KeyError` (`none`); note that
the successful result is the caller's table *after* the in-place column
assignments. -/
def burntLoop : List (String × List ℚ) → List String →
    Option (List (String × List ℚ))
  | df, [] => some df
  | df, t :: rest =>
    match alookup df t, alookup df colAREA with
    | some ps, some area =>
      burntLoop
        (colUpdate df (t ++ sfxAREA) (List.zipWith (fun p a => p / 100 * a) ps area))
        rest
    | _, _ => none

/-- Lines 69-72 of the source: `df.filter(regex='_AREA_HA')` retains the
columns whose name contains the substring `_AREA_HA`, and
`.sum(axis=0)` reduces each retained column to the sum of its values. -/
def seriesOf (df : List (String × List ℚ)) : List (String × ℚ) :=
  (df.filter (fun cv => strContains cv.1 sfxAREA)).map (fun cv => (cv.1, cv.2.sum))

/-- Embedding of `get_total_burnt_area` (lines 50-74).  The result pairs
the caller-visible state of the input table after the call (the source
mutates `df` in place) with the returned per-forest-type series of total
burnt hectares. -/
def get_total_burnt_area (df : List (String × List ℚ)) (forest_types : List String) :
    Option (List (String × List ℚ) × List (String × ℚ)) :=
  (burntLoop df forest_types).map (fun df2 => (df2, seriesOf df2))

/-- A row of the EFFIS-INFC2015 biomass lookup table: the `Region` column
plus the per-forest-type biomass columns. -/
structure BiomassRow where
  Region : String
  values : List (String × ℚ)
deriving DecidableEq

/-- The default region row label used at line 100 of the source. -/
def regionItalia : String := "Italia"

/-- Embedding of `get_biomass` (lines 76-102): with a region given, keep
the rows whose `Region` column equals it; with no region, keep the rows
whose `Region` column is `"Italia"`.  The source has no error path: the
filtered table is returned as is, even when it is empty. -/
def get_biomass (tbl : List BiomassRow) (region : Option String) : List BiomassRow :=
  match region with
  | some r => tbl.filter (fun row => row.Region == r)
  | none => tbl.filter (fun row => row.Region == regionItalia)

/-- The five scorch-height-band columns of the fire-damage table
(Table 5 of Chiriacò et al. 2013).  Field `lt1` is column `"<1"`,
`b1_25` is `"1-2.5"`, `b25_35` is `"2.5-3.5"`, `b35_45` is `"3.5-4.5"`,
`gt45` is `">4.5"`. -/
structure Bands where
  lt1 : ℚ
  b1_25 : ℚ
  b25_35 : ℚ
  b35_45 : ℚ
  gt45 : ℚ
deriving DecidableEq

/-- A row of the EFFIS-Bovio vegetation crosswalk table. -/
structure CrosswalkRow where
  EFFIS_CLASS : String
  BOVIO_NAME : String
  BOVIO_CLASS : String
deriving DecidableEq

/-- A row of the fire-damage (scorch-height) table. -/
structure DamageRow where
  BOVIO_CLASS : String
  bands : Bands
deriving DecidableEq

/-- Inner join of the crosswalk and damage tables on `BOVIO_CLASS`
(line 127 of the source): every pair of rows sharing the key, in
left-table order. -/
def pd_merge (cw : List CrosswalkRow) (dmg : List DamageRow) :
    List (CrosswalkRow × DamageRow) :=
  cw.flatMap (fun r =>
    (dmg.filter (fun d => d.BOVIO_CLASS == r.BOVIO_CLASS)).map (fun d => (r, d)))

/-- Line 130: drop the `BOVIO_NAME`/`BOVIO_CLASS` columns, keeping
`EFFIS_CLASS` and the band columns, then drop duplicate rows (first
occurrence kept). -/
def dropDedup (cw : List CrosswalkRow) (dmg : List DamageRow) :
    List (String × Bands) :=
  ((pd_merge cw dmg).map (fun rd => (rd.1.EFFIS_CLASS, rd.2.bands))).eraseDups

/-- Code-point comparison of characters. -/
def charLtB (a b : Char) : Bool := a.toNat < b.toNat

/-- Lexicographic code-point order on character lists, as Python compares
strings when sorting. -/
def strLtB : List Char → List Char → Bool
  | [], [] => false
  | [], _ :: _ => true
  | _ :: _, [] => false
  | a :: as, b :: bs => charLtB a b || (a == b && strLtB as bs)

/-- Insert a row into a list sorted by the `EFFIS_CLASS` key. -/
def insertByClass (x : String × Bands) : List (String × Bands) → List (String × Bands)
  | [] => [x]
  | y :: ys => if strLtB x.1.data y.1.data then x :: y :: ys else y :: insertByClass x ys

/-- Line 130's `sort_values(by='EFFIS_CLASS')`: sort rows by the
`EFFIS_CLASS` key (the particular permutation chosen among equal keys
does not affect any later step, which only takes grouped means). -/
def sortByClass : List (String × Bands) → List (String × Bands)
  | [] => []
  | x :: xs => insertByClass x (sortByClass xs)

/-- Line 133: group rows by `EFFIS_CLASS` and take the column-wise mean
of the five band columns over each group. -/
def grouped_mean (rows : List (String × Bands)) : List (String × Bands) :=
  ((rows.map Prod.fst).eraseDups).map (fun c =>
    let grp := (rows.filter (fun x => x.1 == c)).map Prod.snd
    (c, ⟨meanQ (grp.map Bands.lt1), meanQ (grp.map Bands.b1_25),
         meanQ (grp.map Bands.b25_35), meanQ (grp.map Bands.b35_45),
         meanQ (grp.map Bands.gt45)⟩))

/-- The five band-column labels, in ascending band order. -/
def band_labels : List String := ["<1", "1-2.5", "2.5-3.5", "3.5-4.5", ">4.5"]

/-- The band-column label chosen by the `if`/`elif` chain at lines
143-152 of the source for a specified scorch height: the trailing `else`
takes everything not caught by the first four tests. -/
def band_column (scorch_height : ℚ) : String :=
  if scorch_height < 1 then "<1"
  else if 1 ≤ scorch_height ∧ scorch_height < 2.5 then "1-2.5"
  else if 2.5 ≤ scorch_height ∧ scorch_height < 3.5 then "2.5-3.5"
  else if 3.5 ≤ scorch_height ∧ scorch_height < 4.5 then "3.5-4.5"
  else ">4.5"

/-- Read the band column with the given label from a grouped row (the
label is always one of `band_labels` where this is used). -/
def bandField (b : Bands) (label : String) : ℚ :=
  if label = "<1" then b.lt1
  else if label = "1-2.5" then b.b1_25
  else if label = "2.5-3.5" then b.b25_35
  else if label = "3.5-4.5" then b.b35_45
  else b.gt45

/-- Lines 138-152: the `COMBUSTION_FACTOR` value for one grouped row.
With no scorch height, the mean of the two highest band columns
(line 139); otherwise the band column selected by the `if`/`elif`
chain. -/
def selectFactor : Option ℚ → Bands → ℚ
  | none, b => (b.b35_45 + b.gt45) / 2
  | some h, b => bandField b (band_column h)

/-- Embedding of `get_combustion_factor` (lines 105-162): join, drop and
deduplicate, sort, group-average, pick the band per the scorch height,
and reshape to a mapping from EFFIS forest class to its single
combustion factor (the source's transpose of the
`EFFIS_CLASS`/`COMBUSTION_FACTOR` table).  There is no error path: an
empty join flows through and yields an empty mapping. -/
def get_combustion_factor (cw : List CrosswalkRow) (dmg : List DamageRow)
    (scorch_height : Option ℚ) : List (String × ℚ) :=
  (grouped_mean (sortByClass (dropDedup cw dmg))).map
    (fun cb => (cb.1, selectFactor scorch_height cb.2))

/-- The gas labels of the three rows kept by line 225 of the source. -/
def gasCO2 : String := "CO2"

/-- The methane row label. -/
def gasCH4 : String := "CH4"

/-- The nitrous-oxide row label. -/
def gasN2O : String := "N2O"

/-- Line 225: `ghg_co2eq_columns = ['CO2', 'CH4', 'N2O']`. -/
def ghg_co2eq_columns : List String := [gasCO2, gasCH4, gasN2O]

/-- Line 190: above-ground biomass of the burnt area for one forest
type, `A[t + "_AREA_HA"] * B[t] * 1000` (Mg converted to kg).  `A` is
the burnt-area series of `get_total_burnt_area` (keyed by the suffixed
column names) and `B` the selected biomass row, both modelled as total
maps since the source would raise on a missing label. -/
def df_totC_INF2015 (A B : String → ℚ) (t : String) : ℚ :=
  A (t ++ sfxAREA) * B t * 1000

/-- Line 198: the combusted above-ground biomass
`df_totC_INF2015[t] * C[t][0]`. -/
def df_totC_INF2015_combustion_factor (A B C : String → ℚ) (t : String) : ℚ :=
  df_totC_INF2015 A B t * C t

/-- Lines 202-215: the (gas, forest type) cell of the outer product of
the one-row emission-factor table `D` with the combusted-biomass row:
the gas's emission factor times the type's combusted biomass.  A gas
label absent from `D` has no row (`none`). -/
def df_ghg (A B C : String → ℚ) (D : List (String × ℚ)) (g t : String) : Option ℚ :=
  (alookup D g).map (fun ef => ef * df_totC_INF2015_combustion_factor A B C t)

/-- Line 218: every cell scaled by `1e-6` into kilotons. -/
def df_ghg_kton (A B C : String → ℚ) (D : List (String × ℚ)) (g t : String) :
    Option ℚ :=
  (df_ghg A B C D g t).map (fun x => x * (1 / 1000000))

/-- Lines 221-222: the `CH4` row is scaled by 28 and the `N2O` row by
273 (AR5 100-year GWP); every other row is left as is. -/
def df_ghg_kton_gwp (A B C : String → ℚ) (D : List (String × ℚ)) (g t : String) :
    Option ℚ :=
  if g = gasCH4 then (df_ghg_kton A B C D g t).map (fun x => x * 28)
  else if g = gasN2O then (df_ghg_kton A B C D g t).map (fun x => x * 273)
  else df_ghg_kton A B C D g t

/-- Line 228: per-forest-type CO2-equivalent kilotons, the sum of the
`CO2`, `CH4` and `N2O` rows of the GWP-scaled kiloton matrix at that
type's column. -/
def emissions_by_forest_type_co2eq (A B C : String → ℚ) (D : List (String × ℚ))
    (t : String) : Option ℚ :=
  seqSum (fun g => df_ghg_kton_gwp A B C D g t) ghg_co2eq_columns

/-- Embedding of `get_total_annual_GHG_emissions` (lines 164-233): the
single scalar obtained by summing the per-forest-type CO2-equivalent
kilotons over all forest types.  Note the source returns only this
scalar (line 233); the per-type series of line 228 is internal. -/
def get_total_annual_GHG_emissions (A B C : String → ℚ) (D : List (String × ℚ))
    (forest_types : List String) : Option ℚ :=
  seqSum (emissions_by_forest_type_co2eq A B C D) forest_types

/-- Reference formula of the claim (following the spec's words, for
comparison with the source-derived pipeline): per forest type, combusted
mass `= A x B x 1000 x C`; per gas, that mass times the gas's emission
factor scaled by `1e-6`, with the CH4 term times 28 and the N2O term
times 273; summed over the three gases and all forest types. -/
def spec_reference_total (A B C : String → ℚ) (efCO2 efCH4 efN2O : ℚ)
    (forest_types : List String) : ℚ :=
  (forest_types.map (fun t =>
    let mass := A (t ++ sfxAREA) * B t * 1000 * C t
    mass * efCO2 * (1 / 1000000) + mass * efCH4 * (1 / 1000000) * 28 +
      mass * efN2O * (1 / 1000000) * 273)).sum

/-- Spec-following band membership predicate (for comparison with the
source's `if`/`elif` chain): each band is a half-open interval, lower
bound inclusive, upper bound exclusive, the last band unbounded. -/
def spec_band_matches (label : String) (h : ℚ) : Bool :=
  if label = "<1" then decide (h < 1)
  else if label = "1-2.5" then decide (1 ≤ h ∧ h < 2.5)
  else if label = "2.5-3.5" then decide (2.5 ≤ h ∧ h < 3.5)
  else if label = "3.5-4.5" then decide (3.5 ≤ h ∧ h < 4.5)
  else if label = ">4.5" then decide (4.5 ≤ h)
  else false

lemma string_append_cancel {a b s : String} (h : a ++ s = b ++ s) : a = b := by
  have hd : a.data ++ s.data = b.data ++ s.data := by
    have := congrArg String.data h
    simpa [String.data_append] using this
  have : a.data = b.data := List.append_cancel_right hd
  exact String.ext this

lemma append_sfx_ne_AREA (t : String) : t ++ sfxAREA ≠ colAREA := by
  intro h
  have h1 : (t ++ sfxAREA).length = colAREA.length := congrArg String.length h
  rw [String.length_append] at h1
  have h2 : sfxAREA.length = 8 := by decide
  have h3 : colAREA.length = 7 := by decide
  omega

lemma isPre_refl (l : List Char) : isPre l l = true := by
  induction l with
  | nil => rfl
  | cons a as ih => simp [isPre, ih]

lemma hasInf_append_right (t pat : List Char) : hasInf pat (t ++ pat) = true := by
  induction t with
  | nil =>
    cases pat with
    | nil => rfl
    | cons c cs => simp [hasInf, isPre_refl]
  | cons c cs ih => simp [hasInf, ih]

lemma strContains_append_sfx (t : String) : strContains (t ++ sfxAREA) sfxAREA = true := by
  unfold strContains
  have hd : (t ++ sfxAREA).data = t.data ++ sfxAREA.data := by
    simp [String.data_append]
  rw [hd]
  exact hasInf_append_right t.data sfxAREA.data

lemma alookup_colUpdate {α : Type} (df : List (String × α)) (n : String) (v : α)
    (c : String) :
    alookup (colUpdate df n v) c = if n = c then some v else alookup df c := by
  induction df with
  | nil => simp [colUpdate, alookup]
  | cons hd rest ih =>
    obtain ⟨c₀, w⟩ := hd
    by_cases h₀ : c₀ = n
    · subst h₀
      by_cases h₁ : c₀ = c <;> simp [colUpdate, alookup, h₁]
    · by_cases h₁ : c₀ = c
      · subst h₁
        have hn : n ≠ c₀ := fun hh => h₀ hh.symm
        simp [colUpdate, h₀, alookup, hn]
      · simp [colUpdate, h₀, alookup, h₁, ih]

lemma alookup_seriesOf (df : List (String × List ℚ)) (k : String)
    (hk : strContains k sfxAREA = true) :
    alookup (seriesOf df) k = (alookup df k).map List.sum := by
  induction df with
  | nil => simp [seriesOf, alookup]
  | cons hd rest ih =>
    obtain ⟨c, v⟩ := hd
    by_cases hck : c = k
    · subst hck
      simp [seriesOf, List.filter_cons, hk, alookup]
    · by_cases hc : strContains c sfxAREA = true
      · simpa [seriesOf, List.filter_cons, hc, alookup, hck] using ih
      · simpa [seriesOf, List.filter_cons, hc, alookup, hck] using ih

lemma alookup_map_val {α β : Type} (l : List (String × α)) (f : α → β) (k : String) :
    alookup (l.map (fun cb => (cb.1, f cb.2))) k = (alookup l k).map f := by
  induction l with
  | nil => simp [alookup]
  | cons hd rest ih =>
    obtain ⟨c, v⟩ := hd
    by_cases hck : c = k <;> simp [alookup, hck, ih]

lemma alookup_map_keyed {β : Type} (l : List String) (h : String → β) (k : String) :
    alookup (l.map (fun c => (c, h c))) k = if k ∈ l then some (h k) else none := by
  induction l with
  | nil => simp [alookup]
  | cons c cs ih =>
    by_cases hck : c = k
    · subst hck
      simp [alookup]
    · have : ¬ k = c := fun hh => hck hh.symm
      simp [alookup, hck, ih, List.mem_cons, this]

lemma insertByClass_perm (x : String × Bands) (l : List (String × Bands)) :
    (insertByClass x l).Perm (x :: l) := by
  induction l with
  | nil => exact List.Perm.refl _
  | cons y ys ih =>
    unfold insertByClass
    cases hlt : strLtB x.1.data y.1.data
    · simp only [hlt, Bool.false_eq_true, if_false]
      exact ((ih.cons y).trans (List.Perm.swap x y ys))
    · simp [hlt]

lemma sortByClass_perm (l : List (String × Bands)) : (sortByClass l).Perm l := by
  induction l with
  | nil => exact List.Perm.refl _
  | cons x xs ih =>
    exact (insertByClass_perm x (sortByClass xs)).trans (ih.cons x)

lemma seqSum_eq_sum {α : Type} (f : α → Option ℚ) (g : α → ℚ) (l : List α)
    (h : ∀ x ∈ l, f x = some (g x)) :
    seqSum f l = some ((l.map g).sum) := by
  induction l with
  | nil => simp [seqSum]
  | cons x xs ih =>
    have hx := h x (by simp)
    have ih2 := ih (fun y hy => h y (by simp [hy]))
    simp [seqSum, hx, ih2]

lemma burntLoop_frame (types : List String) :
    ∀ df df2 : List (String × List ℚ), burntLoop df types = some df2 →
    ∀ c : String, (∀ t ∈ types, t ++ sfxAREA ≠ c) →
    alookup df2 c = alookup df c := by
  induction types with
  | nil =>
    intro df df2 h c _
    simp only [burntLoop, Option.some.injEq] at h
    rw [h]
  | cons t rest ih =>
    intro df df2 h c hc
    unfold burntLoop at h
    cases hps : alookup df t with
    | none => rw [hps] at h; simp at h
    | some ps =>
      cases har : alookup df colAREA with
      | none => rw [hps, har] at h; simp at h
      | some area =>
        rw [hps, har] at h
        simp only [] at h
        have hrec := ih _ _ h c (fun t2 ht2 => hc t2 (List.mem_cons_of_mem _ ht2))
        rw [hrec, alookup_colUpdate]
        have hne : t ++ sfxAREA ≠ c := hc t (List.mem_cons_self _ _)
        simp [hne]

lemma burntLoop_new_col (types : List String) :
    ∀ df df2 : List (String × List ℚ), burntLoop df types = some df2 →
    (∀ t1 ∈ types, ∀ t2 ∈ types, t1 ++ sfxAREA ≠ t2) →
    ∀ t ∈ types, ∀ ps area : List ℚ,
      alookup df t = some ps → alookup df colAREA = some area →
      alookup df2 (t ++ sfxAREA) =
        some (List.zipWith (fun p a => p / 100 * a) ps area) := by
  induction types with
  | nil =>
    intro df df2 _ _ t ht
    cases ht
  | cons t0 rest ih =>
    intro df df2 h hcol t ht ps area hps har
    unfold burntLoop at h
    cases hps0 : alookup df t0 with
    | none => rw [hps0] at h; simp at h
    | some ps0 =>
      rw [hps0, har] at h
      simp only [] at h
      by_cases htr : t ∈ rest
      · have hcol2 : ∀ t1 ∈ rest, ∀ t2 ∈ rest, t1 ++ sfxAREA ≠ t2 :=
          fun t1 h1 t2 h2 =>
            hcol t1 (List.mem_cons_of_mem _ h1) t2 (List.mem_cons_of_mem _ h2)
        have hne1 : t0 ++ sfxAREA ≠ t :=
          hcol t0 (List.mem_cons_self _ _) t ht
        apply ih _ _ h hcol2 t htr ps area
        · rw [alookup_colUpdate]
          simp [hne1, hps]
        · rw [alookup_colUpdate]
          simp [append_sfx_ne_AREA t0, har]
      · have ht0 : t = t0 := by
          rcases List.mem_cons.mp ht with h1 | h1
          · exact h1
          · exact absurd h1 htr
        subst ht0
        have hps_eq : ps0 = ps := by
          rw [hps0] at hps
          exact Option.some.inj hps
        have hframe := burntLoop_frame rest _ _ h (t ++ sfxAREA)
          (fun t2 ht2 heq => htr (string_append_cancel heq ▸ ht2))
        rw [hframe, alookup_colUpdate]
        simp [hps_eq]

/-- Claim C2, counterexample: querying a region absent from the biomass
table does not raise a `RegionNotFoundError` — the source has no raise
statement at all in `get_biomass` (lines 76-102), so the embedded
function is total — and it does not fall back to the default either: it
returns the empty table, a successful query selecting zero rows, which
also refutes the one-row-per-query invariant. -/
theorem claim_C2_counterexample :
    get_biomass [⟨"Italia", [("BROADLEAF", 100)]⟩, ⟨"Calabria", [("BROADLEAF", 120)]⟩]
        (some "Atlantis") = [] ∧
    get_biomass [⟨"Italia", [("BROADLEAF", 100)]⟩, ⟨"Calabria", [("BROADLEAF", 120)]⟩]
        none = [⟨"Italia", [("BROADLEAF", 100)]⟩] := by
  constructor <;> decide

/-- Claim C2 as amended: querying an existing region name (one with
exactly one matching row) returns exactly that row; querying with region
unspecified behaves as querying the national row `"Italia"`; and querying
a region name absent from the table returns the empty table — no error is
raised and no fallback to the default occurs. -/
theorem claim_C2_amended :
    (∀ (tbl : List BiomassRow) (r : String) (row : BiomassRow),
      row ∈ tbl → row.Region = r →
      tbl.countP (fun x => x.Region == r) = 1 →
      get_biomass tbl (some r) = [row]) ∧
    (∀ tbl : List BiomassRow,
      get_biomass tbl none = get_biomass tbl (some regionItalia)) ∧
    (∀ (tbl : List BiomassRow) (r : String),
      (∀ row ∈ tbl, row.Region ≠ r) → get_biomass tbl (some r) = []) := by
  refine ⟨?_, ?_, ?_⟩
  · intro tbl r row hmem hreg hcount
    have hlen : (tbl.filter (fun x => x.Region == r)).length = 1 := by
      rw [← List.countP_eq_length_filter]
      exact hcount
    obtain ⟨a, ha⟩ := List.length_eq_one.mp hlen
    have hmemf : row ∈ tbl.filter (fun x => x.Region == r) :=
      List.mem_filter.mpr ⟨hmem, by simp [hreg]⟩
    rw [ha] at hmemf
    have hrow : row = a := by simpa using hmemf
    subst hrow
    unfold get_biomass
    exact ha
  · intro tbl
    rfl
  · intro tbl r hnone
    unfold get_biomass
    apply List.filter_eq_nil_iff.mpr
    intro a ha
    simp [hnone a ha]

/-- Claim C2, witness instantiating the amended theorem at a concrete
table and an existing region. -/
theorem claim_C2_witness :
    get_biomass [⟨"Italia", [("BROADLEAF", 100)]⟩, ⟨"Umbria", [("BROADLEAF", 90)]⟩]
        (some "Umbria") = [⟨"Umbria", [("BROADLEAF", 90)]⟩] :=
  claim_C2_amended.1
    [⟨"Italia", [("BROADLEAF", 100)]⟩, ⟨"Umbria", [("BROADLEAF", 90)]⟩]
    "Umbria" ⟨"Umbria", [("BROADLEAF", 90)]⟩ (by decide) rfl (by decide)

/-- Claim C3: for every scorch height h ≥ 0 the band chosen by the
source's `if`/`elif` chain is one that h matches under the spec's
half-open-interval reading, no other band matches h (the partition is
non-overlapping), and each boundary value 1, 2.5, 3.5, 4.5 falls into
the band where it is the lower bound. -/
theorem claim_C3_band_partition :
    (∀ h : ℚ, 0 ≤ h →
      spec_band_matches (band_column h) h = true ∧
      ∀ b ∈ band_labels, spec_band_matches b h = true → b = band_column h) ∧
    band_column 1 = "1-2.5" ∧ band_column 2.5 = "2.5-3.5" ∧
    band_column 3.5 = "3.5-4.5" ∧ band_column 4.5 = ">4.5" := by
  constructor
  · intro h h0
    unfold band_column
    split_ifs with h1 h2 h3 h4
    · refine ⟨by simp [spec_band_matches, h1], ?_⟩
      intro b hb hm
      simp only [band_labels, List.mem_cons, List.not_mem_nil, or_false] at hb
      rcases hb with rfl | rfl | rfl | rfl | rfl <;>
          simp [spec_band_matches] at hm <;>
        first
          | rfl
          | (exfalso; first | linarith [hm.1, hm.2] | linarith [hm])
    · obtain ⟨h21, h22⟩ := h2
      refine ⟨by simp [spec_band_matches]; exact ⟨h21, h22⟩, ?_⟩
      intro b hb hm
      simp only [band_labels, List.mem_cons, List.not_mem_nil, or_false] at hb
      rcases hb with rfl | rfl | rfl | rfl | rfl <;>
          simp [spec_band_matches] at hm <;>
        first
          | rfl
          | (exfalso; first | linarith [hm.1, hm.2] | linarith [hm])
    · obtain ⟨h31, h32⟩ := h3
      refine ⟨by simp [spec_band_matches]; exact ⟨h31, h32⟩, ?_⟩
      intro b hb hm
      simp only [band_labels, List.mem_cons, List.not_mem_nil, or_false] at hb
      rcases hb with rfl | rfl | rfl | rfl | rfl <;>
          simp [spec_band_matches] at hm <;>
        first
          | rfl
          | (exfalso; first | linarith [hm.1, hm.2] | linarith [hm])
    · obtain ⟨h41, h42⟩ := h4
      refine ⟨by simp [spec_band_matches]; exact ⟨h41, h42⟩, ?_⟩
      intro b hb hm
      simp only [band_labels, List.mem_cons, List.not_mem_nil, or_false] at hb
      rcases hb with rfl | rfl | rfl | rfl | rfl <;>
          simp [spec_band_matches] at hm <;>
        first
          | rfl
          | (exfalso; first | linarith [hm.1, hm.2] | linarith [hm])
    · have ha1 : (1 : ℚ) ≤ h := le_of_not_lt h1
      have ha2 : (2.5 : ℚ) ≤ h := by
        by_contra hc
        push_neg at hc
        exact h2 ⟨ha1, hc⟩
      have ha3 : (3.5 : ℚ) ≤ h := by
        by_contra hc
        push_neg at hc
        exact h3 ⟨ha2, hc⟩
      have ha4 : (4.5 : ℚ) ≤ h := by
        by_contra hc
        push_neg at hc
        exact h4 ⟨ha3, hc⟩
      refine ⟨by simp [spec_band_matches]; exact ha4, ?_⟩
      intro b hb hm
      simp only [band_labels, List.mem_cons, List.not_mem_nil, or_false] at hb
      rcases hb with rfl | rfl | rfl | rfl | rfl <;>
          simp [spec_band_matches] at hm <;>
        first
          | rfl
          | (exfalso; first | linarith [hm.1, hm.2] | linarith [hm])
  · refine ⟨by norm_num [band_column], by norm_num [band_column], by norm_num [band_column],
      by norm_num [band_column]⟩

/-- Claim C3, witness: the theorem applied at the concrete height 0. -/
theorem claim_C3_witness :
    spec_band_matches (band_column 0) 0 = true :=
  (claim_C3_band_partition.1 0 (by norm_num)).1

/-- Claim C10: the band-selection branch is total over all rationals:
every height below 1 (negative heights included) selects the lowest
band, every height matched by none of the four lower bands is caught by
the trailing `else` and selects the highest band, and every height is
assigned one of the five band columns. -/
theorem claim_C10_band_total :
    ∀ h : ℚ,
      (h < 1 → band_column h = "<1") ∧
      ((¬ h < 1 ∧ ¬ (1 ≤ h ∧ h < 2.5) ∧ ¬ (2.5 ≤ h ∧ h < 3.5) ∧
          ¬ (3.5 ≤ h ∧ h < 4.5)) → band_column h = ">4.5") ∧
      band_column h ∈ band_labels := by
  intro h
  refine ⟨?_, ?_, ?_⟩
  · intro h1
    simp [band_column, h1]
  · rintro ⟨h1, h2, h3, h4⟩
    simp [band_column, h1, h2, h3, h4]
  · unfold band_column
    split_ifs <;> simp [band_labels]

/-- Claim C10, witness: a negative height selects the lowest band and a
height of 15 meters is caught by the trailing `else`. -/
theorem claim_C10_witness :
    band_column (-2) = "<1" ∧ band_column 15 = ">4.5" :=
  ⟨(claim_C10_band_total (-2)).1 (by norm_num),
   (claim_C10_band_total 15).2.1 (by norm_num)⟩

/-- Claim C7: in the keyword-filter loop of `get_effis_data`, a filter
whose value is `None` is a no-op (removing it from the filter sequence
does not change the result), and a non-`None` filter that matches zero
rows of the table it is applied to raises (the source's `ValueError`,
the spec's `NoMatchingDataError`) instead of returning an empty table. -/
theorem claim_C7_filter_contract :
    (∀ (df : List EffisRow) (fs gs : List (String × Option String)) (c : String),
      get_effis_data df (fs ++ (c, none) :: gs) = get_effis_data df (fs ++ gs)) ∧
    (∀ (df : List EffisRow) (c v : String) (rest : List (String × Option String)),
      (df.filter (fun r => rowGet r c == some v)).isEmpty = true →
      get_effis_data df ((c, some v) :: rest) =
        .error (.NoMatchingDataError c v)) := by
  constructor
  · intro df fs
    induction fs generalizing df with
    | nil =>
      intro gs c
      rfl
    | cons p fs ih =>
      intro gs c
      obtain ⟨c0, v0⟩ := p
      cases v0 with
      | none =>
        simpa only [List.cons_append, get_effis_data] using ih df gs c
      | some v =>
        simp only [List.cons_append, get_effis_data]
        by_cases he : (df.filter (fun r => rowGet r c0 == some v)).isEmpty
        · simp [he]
        · simp [he, ih]
  · intro df c v rest he
    simp [get_effis_data, he]

/-- Claim C7, witness: a `None`-valued filter leaves a one-row table
untouched, and filtering that table on a year it does not contain
raises the no-matching-data error. -/
theorem claim_C7_witness :
    get_effis_data [[("YEAR", "2020")]] ([] ++ ("PROVINCE", none) :: []) =
      get_effis_data [[("YEAR", "2020")]] ([] ++ []) ∧
    get_effis_data [[("YEAR", "2020")]] [("YEAR", some "2021")] =
      .error (.NoMatchingDataError "YEAR" "2021") :=
  ⟨claim_C7_filter_contract.1 [[("YEAR", "2020")]] [] [] "PROVINCE",
   claim_C7_filter_contract.2 [[("YEAR", "2020")]] "YEAR" "2021" [] (by decide)⟩

/-- Claim C5, counterexample: the table a caller passes to
`get_total_burnt_area` is not the same after the call — line 66 of the
source assigns new `<type>_AREA_HA` columns into the caller's table in
place, so the caller-observed table has gained a column. -/
theorem claim_C5_counterexample :
    (get_total_burnt_area [("AREA_HA", ([10] : List ℚ)), ("BROADLEAF", [50])]
        ["BROADLEAF"]).map Prod.fst ≠
      some [("AREA_HA", ([10] : List ℚ)), ("BROADLEAF", [50])] := by
  decide

/-- Claim C5 as amended: `get_total_burnt_area` mutates the caller's
table only by assigning the derived `<type>_AREA_HA` columns; every
column whose name is not one of the generated names is observed
unchanged by the caller after the call. -/
theorem claim_C5_amended :
    ∀ (df df2 : List (String × List ℚ)) (s : List (String × ℚ))
      (forest_types : List String) (c : String),
      get_total_burnt_area df forest_types = some (df2, s) →
      (∀ t ∈ forest_types, t ++ sfxAREA ≠ c) →
      alookup df2 c = alookup df c := by
  intro df df2 s forest_types c h hc
  unfold get_total_burnt_area at h
  cases hb : burntLoop df forest_types with
  | none =>
    rw [hb] at h
    simp at h
  | some d =>
    rw [hb] at h
    have hd : d = df2 ∧ seriesOf d = s := by simpa using h
    obtain ⟨rfl, -⟩ := hd
    exact burntLoop_frame forest_types df d hb c hc

/-- Claim C5, witness for the amended theorem: the `AREA_HA` column is
unchanged by the call on a concrete one-event table. -/
theorem claim_C5_witness :
    alookup [("AREA_HA", ([20] : List ℚ)), ("CONIFER", [25]),
        ("CONIFER_AREA_HA", [5])] "AREA_HA" =
      alookup [("AREA_HA", ([20] : List ℚ)), ("CONIFER", [25])] "AREA_HA" := by
  have hb : burntLoop [("AREA_HA", ([20] : List ℚ)), ("CONIFER", [25])] ["CONIFER"] =
      some [("AREA_HA", [20]), ("CONIFER", [25]), ("CONIFER_AREA_HA", [5])] := by
    have h3 : List.zipWith (fun p a => p / 100 * a) ([25] : List ℚ) [20] = [5] := by
      norm_num [List.zipWith]
    simp only [burntLoop, show alookup [("AREA_HA", ([20] : List ℚ)), ("CONIFER", [25])]
        "CONIFER" = some [25] from by decide,
      show alookup [("AREA_HA", ([20] : List ℚ)), ("CONIFER", [25])] colAREA = some [20]
        from by decide, h3]
    decide
  have hs : seriesOf [("AREA_HA", ([20] : List ℚ)), ("CONIFER", [25]),
      ("CONIFER_AREA_HA", [5])] = [("CONIFER_AREA_HA", 5)] := by
    simp [seriesOf, List.filter_cons,
      show strContains "AREA_HA" sfxAREA = false from by decide,
      show strContains "CONIFER" sfxAREA = false from by decide,
      show strContains "CONIFER_AREA_HA" sfxAREA = true from by decide]
  have hg : get_total_burnt_area [("AREA_HA", ([20] : List ℚ)), ("CONIFER", [25])]
      ["CONIFER"] =
      some ([("AREA_HA", [20]), ("CONIFER", [25]), ("CONIFER_AREA_HA", [5])],
        [("CONIFER_AREA_HA", 5)]) := by
    simp [get_total_burnt_area, hb, hs]
  exact claim_C5_amended [("AREA_HA", [20]), ("CONIFER", [25])]
    [("AREA_HA", [20]), ("CONIFER", [25]), ("CONIFER_AREA_HA", [5])]
    [("CONIFER_AREA_HA", 5)] ["CONIFER"] "AREA_HA" hg (by decide)

/-- Claim C6, counterexample: with crosswalk and damage tables whose
`BOVIO_CLASS` keys do not overlap, the inner join is empty, yet
`get_combustion_factor` raises nothing — the source has no emptiness
check after the merge at line 127, and the empty join flows through to
an empty result table. -/
theorem claim_C6_counterexample :
    get_combustion_factor [⟨"BROADLEAF", "broadleaved stands", "A"⟩]
      [⟨"B", ⟨1, 2, 3, 4, 5⟩⟩] none = [] := by
  decide

/-- Claim C6 as amended: when the inner join of the crosswalk and damage
tables produces no rows, `get_combustion_factor` returns the empty
mapping (it defines no error path). -/
theorem claim_C6_amended :
    ∀ (cw : List CrosswalkRow) (dmg : List DamageRow) (h : Option ℚ),
      pd_merge cw dmg = [] → get_combustion_factor cw dmg h = [] := by
  intro cw dmg h hm
  unfold get_combustion_factor dropDedup
  rw [hm]
  rfl

/-- Claim C6, witness for the amended theorem at concrete disjoint
tables and a specified scorch height. -/
theorem claim_C6_witness :
    get_combustion_factor [⟨"CONIFER", "conifer stands", "C1"⟩]
      [⟨"C2", ⟨1, 2, 3, 4, 5⟩⟩] (some 2) = [] :=
  claim_C6_amended [⟨"CONIFER", "conifer stands", "C1"⟩]
    [⟨"C2", ⟨1, 2, 3, 4, 5⟩⟩] (some 2) (by decide)

/-- Claim C9: for every fire-event table with non-negative area and
percentage fields and every list of forest-type labels (labels not
colliding with the generated `_AREA_HA` column names), the burnt-area
series entry for each forest type equals the sum over all events of
(that event's percentage for the type / 100) times the event's total
area in hectares. -/
theorem claim_C9_burnt_area_sum :
    ∀ (df df2 : List (String × List ℚ)) (s : List (String × ℚ))
      (forest_types : List String) (t : String) (ps area : List ℚ),
      get_total_burnt_area df forest_types = some (df2, s) →
      t ∈ forest_types →
      alookup df t = some ps → alookup df colAREA = some area →
      (∀ t1 ∈ forest_types, ∀ t2 ∈ forest_types, t1 ++ sfxAREA ≠ t2) →
      (∀ p ∈ ps, 0 ≤ p) → (∀ a ∈ area, 0 ≤ a) →
      alookup s (t ++ sfxAREA) =
        some ((List.zipWith (fun p a => p / 100 * a) ps area).sum) := by
  intro df df2 s forest_types t ps area hg ht hps har hcol hpnn hann
  unfold get_total_burnt_area at hg
  cases hb : burntLoop df forest_types with
  | none =>
    rw [hb] at hg
    simp at hg
  | some d =>
    rw [hb] at hg
    have hd : d = df2 ∧ seriesOf d = s := by simpa using hg
    obtain ⟨-, hs⟩ := hd
    rw [← hs, alookup_seriesOf d _ (strContains_append_sfx t),
      burntLoop_new_col forest_types df d hb hcol t ht ps area hps har]
    rfl

/-- Claim C9, witness: one event of 10 ha, 50 percent broadleaf, gives a
series entry equal to the per-event formula summed. -/
theorem claim_C9_witness :
    alookup [("BROADLEAF_AREA_HA", (5 : ℚ))] ("BROADLEAF" ++ sfxAREA) =
      some ((List.zipWith (fun p a => p / 100 * a) ([50] : List ℚ) [10]).sum) := by
  have hb : burntLoop [("AREA_HA", ([10] : List ℚ)), ("BROADLEAF", [50])] ["BROADLEAF"] =
      some [("AREA_HA", [10]), ("BROADLEAF", [50]), ("BROADLEAF_AREA_HA", [5])] := by
    have h3 : List.zipWith (fun p a => p / 100 * a) ([50] : List ℚ) [10] = [5] := by
      norm_num [List.zipWith]
    simp only [burntLoop, show alookup [("AREA_HA", ([10] : List ℚ)), ("BROADLEAF", [50])]
        "BROADLEAF" = some [50] from by decide,
      show alookup [("AREA_HA", ([10] : List ℚ)), ("BROADLEAF", [50])] colAREA = some [10]
        from by decide, h3]
    decide
  have hs : seriesOf [("AREA_HA", ([10] : List ℚ)), ("BROADLEAF", [50]),
      ("BROADLEAF_AREA_HA", [5])] = [("BROADLEAF_AREA_HA", 5)] := by
    simp [seriesOf, List.filter_cons,
      show strContains "AREA_HA" sfxAREA = false from by decide,
      show strContains "BROADLEAF" sfxAREA = false from by decide,
      show strContains "BROADLEAF_AREA_HA" sfxAREA = true from by decide]
  have hg : get_total_burnt_area [("AREA_HA", ([10] : List ℚ)), ("BROADLEAF", [50])]
      ["BROADLEAF"] =
      some ([("AREA_HA", [10]), ("BROADLEAF", [50]), ("BROADLEAF_AREA_HA", [5])],
        [("BROADLEAF_AREA_HA", 5)]) := by
    simp [get_total_burnt_area, hb, hs]
  exact claim_C9_burnt_area_sum [("AREA_HA", [10]), ("BROADLEAF", [50])]
    [("AREA_HA", [10]), ("BROADLEAF", [50]), ("BROADLEAF_AREA_HA", [5])]
    [("BROADLEAF_AREA_HA", 5)] ["BROADLEAF"] "BROADLEAF" [50] [10] hg (by decide)
    (by decide) (by decide) (by decide) (by decide) (by decide)

lemma meanQ_perm {l1 l2 : List ℚ} (h : l1.Perm l2) : meanQ l1 = meanQ l2 := by
  unfold meanQ
  rw [h.sum_eq, h.length_eq]

lemma alookup_grouped_mean (rows : List (String × Bands)) (c : String) (b : Bands)
    (h : alookup (grouped_mean rows) c = some b) :
    b = ⟨meanQ (((rows.filter (fun x => x.1 == c)).map Prod.snd).map Bands.lt1),
         meanQ (((rows.filter (fun x => x.1 == c)).map Prod.snd).map Bands.b1_25),
         meanQ (((rows.filter (fun x => x.1 == c)).map Prod.snd).map Bands.b25_35),
         meanQ (((rows.filter (fun x => x.1 == c)).map Prod.snd).map Bands.b35_45),
         meanQ (((rows.filter (fun x => x.1 == c)).map Prod.snd).map Bands.gt45)⟩ := by
  unfold grouped_mean at h
  generalize (rows.map Prod.fst).eraseDups = L at h
  induction L with
  | nil => simp [alookup] at h
  | cons c0 cs ih =>
    simp only [List.map_cons, alookup] at h
    by_cases hc0 : c0 = c
    · subst hc0
      rw [if_pos rfl] at h
      simp only [Option.some.injEq] at h
      rw [← h]
    · rw [if_neg hc0] at h
      exact ih h

/-- Claim C8: with scorch height unspecified, every combustion factor
produced is exactly the arithmetic mean of that forest type's `3.5-4.5`
and `>4.5` band columns of the grouped table (the group means of those
two columns over the joined, deduplicated rows of that type). -/
theorem claim_C8_default_band_mean :
    ∀ (cw : List CrosswalkRow) (dmg : List DamageRow) (c : String) (f : ℚ),
      alookup (get_combustion_factor cw dmg none) c = some f →
      f = (meanQ ((((dropDedup cw dmg).filter (fun x => x.1 == c)).map Prod.snd).map
            Bands.b35_45) +
          meanQ ((((dropDedup cw dmg).filter (fun x => x.1 == c)).map Prod.snd).map
            Bands.gt45)) / 2 := by
  intro cw dmg c f hf
  unfold get_combustion_factor at hf
  rw [alookup_map_val] at hf
  cases hg : alookup (grouped_mean (sortByClass (dropDedup cw dmg))) c with
  | none =>
    rw [hg] at hf
    simp at hf
  | some b =>
    rw [hg] at hf
    simp only [Option.map_some', Option.some.injEq] at hf
    have hb := alookup_grouped_mean _ c b hg
    have hperm : ((sortByClass (dropDedup cw dmg)).filter (fun x => x.1 == c)).Perm
        ((dropDedup cw dmg).filter (fun x => x.1 == c)) :=
      (sortByClass_perm _).filter _
    rw [← hf, hb]
    simp only [selectFactor]
    rw [meanQ_perm ((hperm.map Prod.snd).map Bands.b35_45),
      meanQ_perm ((hperm.map Prod.snd).map Bands.gt45)]

/-- Claim C8, witness: two Bovio classes mapping to the same EFFIS class
with top-band values (2, 4) and (4, 6) give group means 3 and 5, whose
arithmetic mean 4 is exactly the factor produced with no scorch height. -/
theorem claim_C8_witness :
    (4 : ℚ) =
      (meanQ ((((dropDedup [⟨"BROADLEAF", "x", "1"⟩, ⟨"BROADLEAF", "y", "2"⟩]
            [⟨"1", ⟨0, 0, 0, 2, 4⟩⟩, ⟨"2", ⟨0, 0, 0, 4, 6⟩⟩]).filter
          (fun x => x.1 == "BROADLEAF")).map Prod.snd).map Bands.b35_45) +
        meanQ ((((dropDedup [⟨"BROADLEAF", "x", "1"⟩, ⟨"BROADLEAF", "y", "2"⟩]
            [⟨"1", ⟨0, 0, 0, 2, 4⟩⟩, ⟨"2", ⟨0, 0, 0, 4, 6⟩⟩]).filter
          (fun x => x.1 == "BROADLEAF")).map Prod.snd).map Bands.gt45)) / 2 := by
  have h1 : sortByClass (dropDedup [⟨"BROADLEAF", "x", "1"⟩, ⟨"BROADLEAF", "y", "2"⟩]
      [⟨"1", ⟨0, 0, 0, 2, 4⟩⟩, ⟨"2", ⟨0, 0, 0, 4, 6⟩⟩]) =
      [("BROADLEAF", ⟨0, 0, 0, 4, 6⟩), ("BROADLEAF", ⟨0, 0, 0, 2, 4⟩)] := by
    decide
  have h2 : grouped_mean [("BROADLEAF", (⟨0, 0, 0, 4, 6⟩ : Bands)),
      ("BROADLEAF", ⟨0, 0, 0, 2, 4⟩)] = [("BROADLEAF", ⟨0, 0, 0, 3, 5⟩)] := by
    simp [grouped_mean, meanQ,
      show (["BROADLEAF", "BROADLEAF"] : List String).eraseDups = ["BROADLEAF"] from
        by decide]
    norm_num
  have h3 : alookup (get_combustion_factor
      [⟨"BROADLEAF", "x", "1"⟩, ⟨"BROADLEAF", "y", "2"⟩]
      [⟨"1", ⟨0, 0, 0, 2, 4⟩⟩, ⟨"2", ⟨0, 0, 0, 4, 6⟩⟩] none) "BROADLEAF" =
      some 4 := by
    rw [get_combustion_factor, h1, h2]
    simp [alookup, selectFactor]
    norm_num
  exact claim_C8_default_band_mean [⟨"BROADLEAF", "x", "1"⟩, ⟨"BROADLEAF", "y", "2"⟩]
    [⟨"1", ⟨0, 0, 0, 2, 4⟩⟩, ⟨"2", ⟨0, 0, 0, 4, 6⟩⟩] "BROADLEAF" 4 h3

lemma emissions_by_type_eq (A B C : String → ℚ) (D : List (String × ℚ))
    (e1 e2 e3 : ℚ) (h1 : alookup D gasCO2 = some e1) (h2 : alookup D gasCH4 = some e2)
    (h3 : alookup D gasN2O = some e3) (t : String) :
    emissions_by_forest_type_co2eq A B C D t =
      some (A (t ++ sfxAREA) * B t * 1000 * C t * e1 * (1 / 1000000) +
        A (t ++ sfxAREA) * B t * 1000 * C t * e2 * (1 / 1000000) * 28 +
        A (t ++ sfxAREA) * B t * 1000 * C t * e3 * (1 / 1000000) * 273) := by
  have hCO2 : df_ghg_kton_gwp A B C D gasCO2 t =
      some (A (t ++ sfxAREA) * B t * 1000 * C t * e1 * (1 / 1000000)) := by
    simp [df_ghg_kton_gwp, df_ghg_kton, df_ghg, df_totC_INF2015_combustion_factor,
      df_totC_INF2015, h1, show ¬ (gasCO2 = gasCH4) from by decide,
      show ¬ (gasCO2 = gasN2O) from by decide]
    ring
  have hCH4 : df_ghg_kton_gwp A B C D gasCH4 t =
      some (A (t ++ sfxAREA) * B t * 1000 * C t * e2 * (1 / 1000000) * 28) := by
    simp [df_ghg_kton_gwp, df_ghg_kton, df_ghg, df_totC_INF2015_combustion_factor,
      df_totC_INF2015, h2]
    ring
  have hN2O : df_ghg_kton_gwp A B C D gasN2O t =
      some (A (t ++ sfxAREA) * B t * 1000 * C t * e3 * (1 / 1000000) * 273) := by
    simp [df_ghg_kton_gwp, df_ghg_kton, df_ghg, df_totC_INF2015_combustion_factor,
      df_totC_INF2015, h3, show ¬ (gasN2O = gasCH4) from by decide]
    ring
  simp only [emissions_by_forest_type_co2eq, ghg_co2eq_columns, seqSum, hCO2, hCH4, hN2O]
  refine congrArg some ?_
  ring

lemma get_total_eq_reference (A B C : String → ℚ) (D : List (String × ℚ))
    (forest_types : List String) (e1 e2 e3 : ℚ)
    (h1 : alookup D gasCO2 = some e1) (h2 : alookup D gasCH4 = some e2)
    (h3 : alookup D gasN2O = some e3) :
    get_total_annual_GHG_emissions A B C D forest_types =
      some (spec_reference_total A B C e1 e2 e3 forest_types) := by
  unfold get_total_annual_GHG_emissions spec_reference_total
  refine seqSum_eq_sum _ _ forest_types (fun t _ => ?_)
  exact emissions_by_type_eq A B C D e1 e2 e3 h1 h2 h3 t

/-- Claim C1, counterexample: at the spec's concrete scenario (5 ha,
100 Mg/ha, combustion factor 0.8, emission factors 1500/5/0.5) the code
does not produce 600 + 0.56 + 0.0546 kton: its CH4 term is
400000 x 5 x 1e-6 x 28 = 56 (not 0.56) and its N2O term is
400000 x 0.5 x 1e-6 x 273 = 54.6 (not 0.0546), so the total is 710.6. -/
theorem claim_C1_counterexample :
    get_total_annual_GHG_emissions (fun _ => 5) (fun _ => 100) (fun _ => 0.8)
        [("CO2", 1500), ("CH4", 5), ("N2O", 0.5)] ["BROADLEAF"] ≠
      some (600 + 0.56 + 0.0546) := by
  rw [get_total_eq_reference (fun _ => 5) (fun _ => 100) (fun _ => 0.8)
    [("CO2", 1500), ("CH4", 5), ("N2O", 0.5)] ["BROADLEAF"] 1500 5 0.5 rfl rfl rfl]
  simp only [ne_eq, Option.some.injEq]
  norm_num [spec_reference_total]

/-- Claim C1 as amended: for every input whose emission-factor table has
the three gas columns, the total equals the reference formula (per type,
combusted mass A x B x 1000 x C; per gas, mass times the gas's factor
scaled by 1e-6, the CH4 term times 28 and the N2O term times 273; summed
over the three gases and all types); and at the spec's concrete scenario
the total is 600 + 56 + 54.6 = 710.6 kton CO2-eq. -/
theorem claim_C1_total_formula :
    (∀ (A B C : String → ℚ) (D : List (String × ℚ)) (forest_types : List String)
      (e1 e2 e3 : ℚ),
      alookup D gasCO2 = some e1 → alookup D gasCH4 = some e2 →
      alookup D gasN2O = some e3 →
      get_total_annual_GHG_emissions A B C D forest_types =
        some (spec_reference_total A B C e1 e2 e3 forest_types)) ∧
    get_total_annual_GHG_emissions (fun _ => 5) (fun _ => 100) (fun _ => 0.8)
        [("CO2", 1500), ("CH4", 5), ("N2O", 0.5)] ["BROADLEAF"] =
      some (600 + 56 + 54.6) := by
  constructor
  · intro A B C D forest_types e1 e2 e3 h1 h2 h3
    exact get_total_eq_reference A B C D forest_types e1 e2 e3 h1 h2 h3
  · rw [get_total_eq_reference (fun _ => 5) (fun _ => 100) (fun _ => 0.8)
      [("CO2", 1500), ("CH4", 5), ("N2O", 0.5)] ["BROADLEAF"] 1500 5 0.5 rfl rfl rfl]
    refine congrArg some ?_
    norm_num [spec_reference_total]

/-- Claim C1, witness: the general conjunct applied at a further
concrete input (2 ha, 50 Mg/ha, factor one half, factors 10/2/1). -/
theorem claim_C1_witness :
    get_total_annual_GHG_emissions (fun _ => 2) (fun _ => 50) (fun _ => 1/2)
        [("CO2", 10), ("CH4", 2), ("N2O", 1)] ["CONIFER"] =
      some (spec_reference_total (fun _ => 2) (fun _ => 50) (fun _ => 1/2)
        10 2 1 ["CONIFER"]) :=
  claim_C1_total_formula.1 (fun _ => 2) (fun _ => 50) (fun _ => 1/2)
    [("CO2", 10), ("CH4", 2), ("N2O", 1)] ["CONIFER"] 10 2 1 rfl rfl rfl

/-- Claim C4: the source computes the per-forest-type CO2-equivalent
breakdown (line 228) and the total as its sum over types (line 231), but
returns only the scalar total (line 233) — although the repository's own
caller, `main.py` line 74, unpacks two results from the call.  At a
concrete two-type input the embedded code confirms: the breakdown values
exist internally and the single returned value is exactly their sum. -/
theorem claim_C4_total_is_sum_of_breakdown :
    emissions_by_forest_type_co2eq (fun s => if s = "BROADLEAF" ++ sfxAREA then 5 else 2)
        (fun _ => 100) (fun _ => 1/2) [("CO2", 1000), ("CH4", 10), ("N2O", 2)]
        "BROADLEAF" = some (913/2) ∧
    emissions_by_forest_type_co2eq (fun s => if s = "BROADLEAF" ++ sfxAREA then 5 else 2)
        (fun _ => 100) (fun _ => 1/2) [("CO2", 1000), ("CH4", 10), ("N2O", 2)]
        "CONIFER" = some (913/5) ∧
    get_total_annual_GHG_emissions (fun s => if s = "BROADLEAF" ++ sfxAREA then 5 else 2)
        (fun _ => 100) (fun _ => 1/2) [("CO2", 1000), ("CH4", 10), ("N2O", 2)]
        ["BROADLEAF", "CONIFER"] = some (913/2 + 913/5) := by
  have hB : emissions_by_forest_type_co2eq
      (fun s => if s = "BROADLEAF" ++ sfxAREA then 5 else 2) (fun _ => 100)
      (fun _ => 1/2) [("CO2", 1000), ("CH4", 10), ("N2O", 2)] "BROADLEAF" =
      some (913/2) := by
    rw [emissions_by_type_eq (fun s => if s = "BROADLEAF" ++ sfxAREA then 5 else 2)
      (fun _ => 100) (fun _ => 1/2) [("CO2", 1000), ("CH4", 10), ("N2O", 2)]
      1000 10 2 rfl rfl rfl "BROADLEAF"]
    refine congrArg some ?_
    norm_num
  have hC : emissions_by_forest_type_co2eq
      (fun s => if s = "BROADLEAF" ++ sfxAREA then 5 else 2) (fun _ => 100)
      (fun _ => 1/2) [("CO2", 1000), ("CH4", 10), ("N2O", 2)] "CONIFER" =
      some (913/5) := by
    rw [emissions_by_type_eq (fun s => if s = "BROADLEAF" ++ sfxAREA then 5 else 2)
      (fun _ => 100) (fun _ => 1/2) [("CO2", 1000), ("CH4", 10), ("N2O", 2)]
      1000 10 2 rfl rfl rfl "CONIFER"]
    refine congrArg some ?_
    norm_num [show ¬ ("CONIFER" ++ sfxAREA = "BROADLEAF" ++ sfxAREA) from by decide]
  refine ⟨hB, hC, ?_⟩
  simp only [get_total_annual_GHG_emissions, seqSum, hB, hC]
  refine congrArg some ?_
  norm_num
